import Mathlib

/-!
Shallow embedding of `src/ExternalLexer.cxx` (Scintilla external lexer
support): the `ExternalLexerModule` / `LexerLibrary` / `LexerManager`
classes and their interaction with the external `DynamicLibrary` loader
and the global `Catalogue`.

External collaborators (the dynamic loader and the plugin's exported
symbols) are modelled as an environment `LoaderEnv`: for a path it yields
the loaded library object (its validity flag and the three resolved
symbols, each possibly null).  The factory values returned by
`GetLexerFactory` are opaque; they are modelled as natural-number tokens.
Calling an unresolved (null) symbol is undefined behaviour in the C++
source; constructions that would do so are modelled as `none` (a crash),
so `Option` marks the places where an error escapes.
-/

namespace Scintilla

/-- The `SCLEX_AUTOMATIC` language-id placeholder from `SciLexer.h`
(its numeric value is immaterial to the properties proved here). -/
def SCLEX_AUTOMATIC : Int := 1000

/-- Result of `DynamicLibrary::Load`: the validity flag and the three
fixed-name symbols that `LexerLibrary`'s constructor resolves.
`GetLexerCount` is conflated with the integer its call returns;
`GetLexerName` takes the index and the buffer length and yields the
string written into the buffer; `GetLexerFactory` takes the index and
yields an opaque factory token. -/
structure NativeLibrary where
  valid : Bool
  GetLexerCount : Option Int
  GetLexerName : Option (Nat → Nat → String)
  GetLexerFactory : Option (Nat → Nat)

/-- The dynamic-library loader: what `DynamicLibrary::Load` yields for
each path. -/
abbrev LoaderEnv := String → NativeLibrary

/-- `ExternalLexerModule`: language id, lexer name and (after
`SetExternal`) the factory obtained by calling the factory accessor at
the module's index. `fnFactory = none` models the null factory of a
freshly constructed module. -/
structure ExternalLexerModule where
  language : Int
  name : String
  fnFactory : Option Nat
deriving DecidableEq, Repr

/-- `ExternalLexerModule::SetExternal`: store the factory accessor and
call it at `index`, recording the produced factory. -/
def ExternalLexerModule.SetExternal (m : ExternalLexerModule)
    (fFactory : Nat → Nat) (index : Nat) : ExternalLexerModule :=
  { m with fnFactory := some (fFactory index) }

/-- Observable events of a `LexerLibrary` construction:
`register i` is the `Catalogue::AddLexerModule` call for the module at
index `i`; `setFactory i` is the `SetExternal` call on that module. -/
inductive Event where
  | register (i : Nat)
  | setFactory (i : Nat)
deriving DecidableEq, Repr

/-- Event trace of the discovery loop for a count of `n`: for each
index, the module is registered into the catalogue and then its factory
is bound (the order of lines 130 and 137 of the source). -/
def libTrace : Nat → List Event
  | 0 => []
  | n + 1 => libTrace n ++ [Event.register n, Event.setFactory n]

/-- State of a `LexerLibrary`: whether the held `DynamicLibrary` is
valid, the stored `moduleName` (empty unless the open succeeded) and the
owned modules. -/
structure LexerLibrary where
  libValid : Bool
  moduleName : String
  modules : List ExternalLexerModule
deriving DecidableEq, Repr

/-- `LexerLibrary::LexerLibrary(moduleName_)`: open the library; if
valid, store the path and resolve `GetLexerCount`; when present, obtain
the count and run the discovery loop, resolving `GetLexerName` and
`GetLexerFactory` and, per index, reading the name into a 100-byte
buffer, creating the module, registering it and binding its factory.
A call through an unresolved symbol inside the loop is a crash
(`none`). The result carries the constructed state and the event
trace. -/
def LexerLibrary.construct (env : LoaderEnv) (moduleName_ : String) :
    Option (LexerLibrary × List Event) :=
  if (env moduleName_).valid then
    match (env moduleName_).GetLexerCount with
    | none => some ({ libValid := true, moduleName := moduleName_, modules := [] }, [])
    | some nl =>
      if nl.toNat = 0 then
        some ({ libValid := true, moduleName := moduleName_, modules := [] }, [])
      else
        match (env moduleName_).GetLexerName, (env moduleName_).GetLexerFactory with
        | some nameFn, some fnFactory =>
          some ({ libValid := true, moduleName := moduleName_,
                  modules := (List.range nl.toNat).map (fun i =>
                    let lexname := nameFn i 100
                    let lex : ExternalLexerModule :=
                      { language := SCLEX_AUTOMATIC, name := lexname, fnFactory := none }
                    lex.SetExternal fnFactory i) },
                libTrace nl.toNat)
        | _, _ => none
  else
    some ({ libValid := false, moduleName := "", modules := [] }, [])

/-- The global `Catalogue`: the ordered non-owning references it holds,
each `(slot, i)` pointing at module `i` of the library in registry slot
`slot`. -/
structure Catalogue where
  entries : List (Nat × Nat)
deriving DecidableEq, Repr

/-- `LexerManager`: the ordered sequence of owned libraries. -/
structure LexerManager where
  libraries : List LexerLibrary
deriving DecidableEq, Repr

/-- Catalogue references produced by the `register` events of a
construction trace, for a library placed in registry slot `slot`. -/
def registrations (slot : Nat) (tr : List Event) : List (Nat × Nat) :=
  tr.filterMap (fun e => match e with
    | Event.register i => some (slot, i)
    | Event.setFactory _ => none)

/-- `LexerManager::Load(path)`: if a held library's stored `moduleName`
equals `path`, return unchanged; otherwise construct a `LexerLibrary`
for `path` (whose registrations extend the catalogue) and append it. -/
def LexerManager.Load (env : LoaderEnv) (m : LexerManager) (cat : Catalogue)
    (path : String) : Option (LexerManager × Catalogue) :=
  if m.libraries.any (fun ll => ll.moduleName == path) then
    some (m, cat)
  else
    match LexerLibrary.construct env path with
    | none => none
    | some (lib, tr) =>
      some ({ libraries := m.libraries ++ [lib] },
            { entries := cat.entries ++ registrations m.libraries.length tr })

/-- `LexerManager::Clear()`: `libraries.clear()`. The catalogue is
untouched (its references dangle). -/
def LexerManager.Clear (m : LexerManager) : LexerManager :=
  { m with libraries := [] }

/-- `LexerManager::GetInstance()`: return the singleton, creating it
when absent. -/
def LexerManager.GetInstance (g : Option LexerManager) :
    LexerManager × Option LexerManager :=
  match g with
  | some m => (m, some m)
  | none => ({ libraries := [] }, some { libraries := [] })

/-- `LexerManager::DeleteInstance()`: destroy the singleton (its
destructor runs `Clear`, destroying every library and module). -/
def LexerManager.DeleteInstance (_ : Option LexerManager) : Option LexerManager :=
  none

/-- `LMMinder::~LMMinder()`: at process teardown, delete the manager
instance. -/
def LMMinder.onExit (g : Option LexerManager) : Option LexerManager :=
  LexerManager.DeleteInstance g

/-- Follow a catalogue reference to the module it points at, if that
module is still owned by a library in the registry. -/
def LexerManager.deref (m : LexerManager) (r : Nat × Nat) :
    Option ExternalLexerModule :=
  match m.libraries[r.1]? with
  | some lib => lib.modules[r.2]?
  | none => none

/-- Names of the capabilities the catalogue can still resolve. -/
def catalogueNames (m : LexerManager) (cat : Catalogue) : List String :=
  cat.entries.filterMap (fun r => (m.deref r).map (fun md => md.name))

/-- All modules currently owned by some library in the registry. -/
def LexerManager.liveModules (m : LexerManager) : List ExternalLexerModule :=
  (m.libraries.map (fun ll => ll.modules)).flatten

/-- Number of `DynamicLibrary` handles held by the registry (one per
owned library). -/
def LexerManager.heldHandles (m : LexerManager) : Nat :=
  m.libraries.length

/-- Live modules reachable through an optional manager instance. -/
def liveModulesOpt : Option LexerManager → List ExternalLexerModule
  | none => []
  | some m => m.liveModules

/-- `a` occurs at a strictly earlier position than `b` in `tr`. -/
def occursBeforeB (tr : List Event) (a b : Event) : Bool :=
  (List.range tr.length).any (fun i =>
    (List.range tr.length).any (fun j =>
      decide (i < j) && decide (tr[i]? = some a) && decide (tr[j]? = some b)))

def emptyManager : LexerManager := { libraries := [] }

def emptyCatalogue : Catalogue := { entries := [] }

/-- An environment in which every open fails. -/
def badEnv : LoaderEnv := fun _ =>
  { valid := false, GetLexerCount := none, GetLexerName := none,
    GetLexerFactory := none }

/-- A plugin exporting three lexers named Alpha, Beta, Gamma. -/
def threeLexEnv : LoaderEnv := fun _ =>
  { valid := true, GetLexerCount := some 3,
    GetLexerName := some (fun i _ =>
      if i = 0 then "Alpha" else if i = 1 then "Beta" else "Gamma"),
    GetLexerFactory := some (fun i => i + 10) }

/-- A plugin exporting a single lexer. -/
def oneLexEnv : LoaderEnv := fun _ =>
  { valid := true, GetLexerCount := some 1,
    GetLexerName := some (fun _ _ => "Solo"),
    GetLexerFactory := some (fun _ => 7) }

/-- A library that opens but exports no `GetLexerCount` symbol. -/
def noCountEnv : LoaderEnv := fun _ =>
  { valid := true, GetLexerCount := none,
    GetLexerName := some (fun _ _ => "X"),
    GetLexerFactory := some (fun i => i) }

/-- A library with a count of 1 but no `GetLexerName` symbol. -/
def missingNameEnv : LoaderEnv := fun _ =>
  { valid := true, GetLexerCount := some 1, GetLexerName := none,
    GetLexerFactory := some (fun i => i) }

/-- A library whose count accessor reports a negative count. -/
def negCountEnv : LoaderEnv := fun _ =>
  { valid := true, GetLexerCount := some (-2), GetLexerName := none,
    GetLexerFactory := none }

/-- The over-long name a misbehaving plugin would like to report. -/
def longReportedName : String := String.mk (List.replicate 150 'x')

/-- A name accessor honouring the interface contract: writes at most
`buflength - 1` characters of the 150-character reported name plus the
terminator. -/
def longNameWriter : Nat → Nat → String := fun _ b =>
  String.mk (List.replicate (min 149 (b - 1)) 'x')

/-- A plugin reporting a 150-character lexer name. -/
def longNameEnv : LoaderEnv := fun _ =>
  { valid := true, GetLexerCount := some 1,
    GetLexerName := some longNameWriter,
    GetLexerFactory := some (fun _ => 0) }

/-- A registry holding one loaded library with one module, whose single
catalogue reference points at that module (slot 0, index 0). -/
def demoManager : LexerManager :=
  ⟨[⟨true, "p", [⟨SCLEX_AUTOMATIC, "Solo", some 7⟩]⟩]⟩

/-- The catalogue matching `demoManager`. -/
def demoCatalogue : Catalogue := { entries := [(0, 0)] }

/-! ### General lemmas about the discovery trace and the constructor -/

theorem length_libTrace (n : Nat) : (libTrace n).length = 2 * n := by
  induction n with
  | zero => rfl
  | succ n ih => simp [libTrace, ih]; omega

theorem count_setFactory_libTrace (n i : Nat) :
    (libTrace n).count (Event.setFactory i) = if i < n then 1 else 0 := by
  induction n with
  | zero => simp [libTrace]
  | succ n ih =>
    have hc : List.count (Event.setFactory i)
        [Event.register n, Event.setFactory n] = if i = n then 1 else 0 := by
      by_cases h : i = n <;> simp [List.count_cons, h]
    rw [libTrace, List.count_append, ih, hc]
    split_ifs <;> omega

theorem getElem_libTrace_reg (n i : Nat) (h : i < n) :
    (libTrace n)[2 * i]? = some (Event.register i) := by
  induction n with
  | zero => omega
  | succ n ih =>
    rw [libTrace]
    rcases Nat.lt_succ_iff_lt_or_eq.mp h with h2 | h2
    · rw [List.getElem?_append_left (by rw [length_libTrace]; omega)]
      exact ih h2
    · subst h2
      rw [List.getElem?_append_right (by rw [length_libTrace]), length_libTrace]
      simp

theorem getElem_libTrace_set (n i : Nat) (h : i < n) :
    (libTrace n)[2 * i + 1]? = some (Event.setFactory i) := by
  induction n with
  | zero => omega
  | succ n ih =>
    rw [libTrace]
    rcases Nat.lt_succ_iff_lt_or_eq.mp h with h2 | h2
    · rw [List.getElem?_append_left (by rw [length_libTrace]; omega)]
      exact ih h2
    · subst h2
      rw [List.getElem?_append_right (by rw [length_libTrace]; omega),
        length_libTrace]
      have h1 : 2 * i + 1 - 2 * i = 1 := by omega
      rw [h1]
      simp

/-- A failed `DynamicLibrary` open leaves an inert library whose stored
`moduleName` stays empty. -/
theorem construct_invalid (env : LoaderEnv) (P : String)
    (hv : (env P).valid = false) :
    LexerLibrary.construct env P =
      some ({ libValid := false, moduleName := "", modules := [] }, []) := by
  unfold LexerLibrary.construct
  rw [hv]
  simp

/-- With no `GetLexerCount` symbol the library holds zero modules. -/
theorem construct_no_count (env : LoaderEnv) (P : String)
    (hv : (env P).valid = true) (hc : (env P).GetLexerCount = none) :
    LexerLibrary.construct env P =
      some ({ libValid := true, moduleName := P, modules := [] }, []) := by
  unfold LexerLibrary.construct
  rw [hv, hc]
  simp

/-- A reported count whose `toNat` is zero makes the loop run zero
iterations. -/
theorem construct_zero_count (env : LoaderEnv) (P : String) (nl : Int)
    (hv : (env P).valid = true) (hc : (env P).GetLexerCount = some nl)
    (hn : nl.toNat = 0) :
    LexerLibrary.construct env P =
      some ({ libValid := true, moduleName := P, modules := [] }, []) := by
  unfold LexerLibrary.construct
  rw [hv, hc]
  simp [hn]

/-- The discovery loop with all symbols present: one module per index,
name read with a buffer length of 100, factory bound at the module's own
index, trace `libTrace`. -/
theorem construct_main (env : LoaderEnv) (P : String) (nl : Int)
    (nf : Nat → Nat → String) (ff : Nat → Nat)
    (hv : (env P).valid = true) (hc : (env P).GetLexerCount = some nl)
    (hn : nl.toNat ≠ 0)
    (hnf : (env P).GetLexerName = some nf)
    (hff : (env P).GetLexerFactory = some ff) :
    LexerLibrary.construct env P =
      some ({ libValid := true, moduleName := P,
              modules := (List.range nl.toNat).map (fun i =>
                { language := SCLEX_AUTOMATIC, name := nf i 100,
                  fnFactory := some (ff i) }) },
            libTrace nl.toNat) := by
  unfold LexerLibrary.construct
  rw [hv, hc, hnf, hff]
  simp [hn, ExternalLexerModule.SetExternal]

/-- A positive count with a missing name or factory symbol makes the
loop call through a null pointer: the construction crashes. -/
theorem construct_crash (env : LoaderEnv) (P : String) (nl : Int)
    (hv : (env P).valid = true) (hc : (env P).GetLexerCount = some nl)
    (hn : nl.toNat ≠ 0)
    (hmiss : (env P).GetLexerName = none ∨ (env P).GetLexerFactory = none) :
    LexerLibrary.construct env P = none := by
  unfold LexerLibrary.construct
  rw [hv, hc]
  rcases hmiss with hm | hm <;> rw [hm] <;>
    rcases hf : (env P).GetLexerName with _ | nf <;>
    rcases hg : (env P).GetLexerFactory with _ | gg <;> simp [hn]

/-- After a successful open, every non-crashing construction stores the
requested path. -/
theorem construct_moduleName (env : LoaderEnv) (P : String)
    (st : LexerLibrary) (tr : List Event)
    (hv : (env P).valid = true)
    (h : LexerLibrary.construct env P = some (st, tr)) :
    st.moduleName = P := by
  rcases hc : (env P).GetLexerCount with _ | nl
  · rw [construct_no_count env P hv hc] at h
    simp only [Option.some.injEq, Prod.mk.injEq] at h
    rw [← h.1]
  · by_cases hz : nl.toNat = 0
    · rw [construct_zero_count env P nl hv hc hz] at h
      simp only [Option.some.injEq, Prod.mk.injEq] at h
      rw [← h.1]
    · rcases hnf : (env P).GetLexerName with _ | nf
      · rw [construct_crash env P nl hv hc hz (Or.inl hnf)] at h
        exact absurd h (by simp)
      · rcases hff : (env P).GetLexerFactory with _ | ff
        · rw [construct_crash env P nl hv hc hz (Or.inr hff)] at h
          exact absurd h (by simp)
        · rw [construct_main env P nl nf ff hv hc hz hnf hff] at h
          simp only [Option.some.injEq, Prod.mk.injEq] at h
          rw [← h.1]

/-- Shape of every non-crashing construction: either zero modules and an
empty trace, or the full discovery loop over the module count. -/
theorem construct_cases (env : LoaderEnv) (P : String)
    (st : LexerLibrary) (tr : List Event)
    (h : LexerLibrary.construct env P = some (st, tr)) :
    (st.modules = [] ∧ tr = []) ∨
    ∃ nf ff, (env P).GetLexerName = some nf ∧
      (env P).GetLexerFactory = some ff ∧
      st.modules = (List.range st.modules.length).map (fun i =>
        { language := SCLEX_AUTOMATIC, name := nf i 100,
          fnFactory := some (ff i) }) ∧
      tr = libTrace st.modules.length := by
  rcases hv : (env P).valid with _ | _
  · rw [construct_invalid env P hv] at h
    simp only [Option.some.injEq, Prod.mk.injEq] at h
    left
    rw [← h.1, ← h.2]
    exact ⟨rfl, rfl⟩
  · rcases hc : (env P).GetLexerCount with _ | nl
    · rw [construct_no_count env P hv hc] at h
      simp only [Option.some.injEq, Prod.mk.injEq] at h
      left
      rw [← h.1, ← h.2]
      exact ⟨rfl, rfl⟩
    · by_cases hz : nl.toNat = 0
      · rw [construct_zero_count env P nl hv hc hz] at h
        simp only [Option.some.injEq, Prod.mk.injEq] at h
        left
        rw [← h.1, ← h.2]
        exact ⟨rfl, rfl⟩
      · rcases hnf : (env P).GetLexerName with _ | nf
        · rw [construct_crash env P nl hv hc hz (Or.inl hnf)] at h
          exact absurd h (by simp)
        · rcases hff : (env P).GetLexerFactory with _ | ff
          · rw [construct_crash env P nl hv hc hz (Or.inr hff)] at h
            exact absurd h (by simp)
          · rw [construct_main env P nl nf ff hv hc hz hnf hff] at h
            simp only [Option.some.injEq, Prod.mk.injEq] at h
            right
            refine ⟨nf, ff, rfl, rfl, ?_, ?_⟩
            · rw [← h.1]
              simp
            · rw [← h.2, ← h.1]
              simp

/-- `Load` of a path some held library already stores is a no-op. -/
theorem Load_dedup (env : LoaderEnv) (m : LexerManager) (cat : Catalogue)
    (path : String)
    (hdup : m.libraries.any (fun ll => ll.moduleName == path) = true) :
    LexerManager.Load env m cat path = some (m, cat) := by
  unfold LexerManager.Load
  rw [hdup]
  simp

/-- `Load` of a fresh path appends the constructed library and extends
the catalogue with the registrations of its trace. -/
theorem Load_fresh (env : LoaderEnv) (m : LexerManager) (cat : Catalogue)
    (path : String) (lib : LexerLibrary) (tr : List Event)
    (hdup : m.libraries.any (fun ll => ll.moduleName == path) = false)
    (hcon : LexerLibrary.construct env path = some (lib, tr)) :
    LexerManager.Load env m cat path =
      some ({ libraries := m.libraries ++ [lib] },
            { entries := cat.entries ++ registrations m.libraries.length tr }) := by
  unfold LexerManager.Load
  rw [hdup, hcon]
  simp

/-! ### Claim C3 -/

/-- C3, counterexample: a successfully opened library whose `GetLexerName`
symbol cannot be resolved while `GetLexerCount` resolves and reports a
positive count is NOT absorbed: the discovery loop calls the unresolved
symbol and the load crashes (`none`) instead of degrading to zero
lexers. -/
theorem missing_name_symbol_crashes_cex :
    (missingNameEnv "p").valid = true ∧
    (missingNameEnv "p").GetLexerName = none ∧
    LexerManager.Load missingNameEnv emptyManager emptyCatalogue "p" = none :=
  ⟨rfl, rfl, rfl⟩

/-- C3, amended: only the absence of the count accessor is absorbed.
For every successfully opened library whose `GetLexerCount` symbol
cannot be resolved, zero lexers are discovered, no capability is
registered and no error escapes; absence of the name or factory
accessor is not checked and, with a positive count, leads to a call
through an unresolved symbol. -/
theorem missing_count_symbol_absorbed (env : LoaderEnv) (m : LexerManager)
    (cat : Catalogue) (P : String)
    (hv : (env P).valid = true)
    (hc : (env P).GetLexerCount = none)
    (hdup : m.libraries.any (fun ll => ll.moduleName == P) = false) :
    LexerManager.Load env m cat P =
      some ({ libraries := m.libraries ++
                [{ libValid := true, moduleName := P, modules := [] }] }, cat) := by
  rw [Load_fresh env m cat P _ _ hdup (construct_no_count env P hv hc)]
  simp [registrations]

/-- C3, witness: a concrete library with no count symbol loads to an
inert empty library without touching the catalogue. -/
theorem missing_count_symbol_absorbed_witness :
    LexerManager.Load noCountEnv emptyManager emptyCatalogue "p" =
      some ({ libraries := [⟨true, "p", []⟩] }, emptyCatalogue) :=
  missing_count_symbol_absorbed noCountEnv emptyManager emptyCatalogue "p"
    rfl rfl rfl

/-! ### Claim C5 -/

/-- C5: for every path whose native open fails, `Load` registers zero
additional capabilities, leaves every previously loaded library
unchanged, does not fail, and any library it appends holds zero
modules. -/
theorem failsoft_bad_path (env : LoaderEnv) (m : LexerManager)
    (cat : Catalogue) (P : String) (hv : (env P).valid = false) :
    ∃ m2 : LexerManager,
      LexerManager.Load env m cat P = some (m2, cat) ∧
      m2.libraries.take m.libraries.length = m.libraries ∧
      ∀ ll ∈ m2.libraries.drop m.libraries.length,
        ll.modules = [] ∧ ll.libValid = false := by
  by_cases hdup : m.libraries.any (fun ll => ll.moduleName == P) = true
  · refine ⟨m, Load_dedup env m cat P hdup, List.take_length _, ?_⟩
    simp
  · rw [Bool.not_eq_true] at hdup
    refine ⟨{ libraries := m.libraries ++
        [{ libValid := false, moduleName := "", modules := [] }] }, ?_, ?_, ?_⟩
    · rw [Load_fresh env m cat P _ _ hdup (construct_invalid env P hv)]
      simp [registrations]
    · exact List.take_left _ _
    · simp [List.drop_left]

/-- C5, witness: loading a bad path into an empty registry. -/
theorem failsoft_bad_path_witness :
    ∃ m2 : LexerManager,
      LexerManager.Load badEnv emptyManager emptyCatalogue "p" =
        some (m2, emptyCatalogue) ∧
      m2.libraries.take emptyManager.libraries.length = emptyManager.libraries ∧
      ∀ ll ∈ m2.libraries.drop emptyManager.libraries.length,
        ll.modules = [] ∧ ll.libValid = false :=
  failsoft_bad_path badEnv emptyManager emptyCatalogue "p" rfl

/-! ### Claim C6 -/

/-- C6: after `Clear()` on the registry — and likewise after the
shutdown hook triggers `DeleteInstance` at teardown — every owned module
of every loaded library is destroyed (no live modules remain), no
previously registered catalogue reference resolves to a module any
longer, and all native module handles are released. -/
theorem teardown_cascade (m : LexerManager) (cat : Catalogue) :
    (LexerManager.Clear m).liveModules = [] ∧
    (LexerManager.Clear m).heldHandles = 0 ∧
    (∀ r ∈ cat.entries, (LexerManager.Clear m).deref r = none) ∧
    liveModulesOpt (LMMinder.onExit (some m)) = [] := by
  refine ⟨rfl, rfl, ?_, rfl⟩
  intro r _
  rcases r with ⟨a, b⟩
  simp [LexerManager.Clear, LexerManager.deref]

/-- C6, witness: clearing a registry with one loaded module invalidates
its registered catalogue reference. -/
theorem teardown_cascade_witness :
    (LexerManager.Clear demoManager).liveModules = [] ∧
    (LexerManager.Clear demoManager).deref (0, 0) = none :=
  ⟨(teardown_cascade demoManager demoCatalogue).1,
   (teardown_cascade demoManager demoCatalogue).2.2.1 (0, 0) (by decide)⟩

/-! ### Claim C8 -/

/-- C8: `Clear` is idempotent — `Clear` after `Clear` equals a single
`Clear` — and calling `Clear` on a registry with zero libraries is a
no-op returning the very same state, with no error (the function is
total). -/
theorem clear_idempotent (m : LexerManager) :
    LexerManager.Clear (LexerManager.Clear m) = LexerManager.Clear m ∧
    (m.libraries = [] → LexerManager.Clear m = m) := by
  refine ⟨rfl, ?_⟩
  intro h
  cases m with
  | mk libs =>
    simp only [LexerManager.Clear]
    simp at h
    rw [h]

/-- C8, witness: clearing the empty registry returns it unchanged. -/
theorem clear_idempotent_witness :
    LexerManager.Clear emptyManager = emptyManager :=
  (clear_idempotent emptyManager).2 rfl

/-! ### Claim C10 -/

/-- C10: for every successfully opened library whose count accessor
returns a non-positive value, the discovery loop runs zero iterations:
no module is constructed, nothing is registered in the catalogue and the
library's module sequence stays empty. -/
theorem nonpositive_count_empty (env : LoaderEnv) (m : LexerManager)
    (cat : Catalogue) (P : String) (nl : Int)
    (hv : (env P).valid = true)
    (hc : (env P).GetLexerCount = some nl)
    (hn : nl ≤ 0)
    (hdup : m.libraries.any (fun ll => ll.moduleName == P) = false) :
    LexerManager.Load env m cat P =
      some ({ libraries := m.libraries ++
                [{ libValid := true, moduleName := P, modules := [] }] }, cat) := by
  rw [Load_fresh env m cat P _ _ hdup
      (construct_zero_count env P nl hv hc (by omega))]
  simp [registrations]

/-- C10, witness: a plugin reporting a count of -2 yields an empty
library and an untouched catalogue. -/
theorem nonpositive_count_empty_witness :
    LexerManager.Load negCountEnv emptyManager emptyCatalogue "p" =
      some ({ libraries := [⟨true, "p", []⟩] }, emptyCatalogue) :=
  nonpositive_count_empty negCountEnv emptyManager emptyCatalogue "p" (-2)
    rfl rfl (by decide) rfl

/-! ### Claim C1 -/

/-- C1, counterexample: when the native open of path `"p"` fails, two
successive `Load("p")` calls retain TWO libraries (both with an empty
stored path), and zero retained libraries carry path `"p"` — not
"exactly one retained library for path P". The dedup check compares the
stored name, which stays empty on a failed open. -/
theorem load_idempotent_fails_cex :
    ((LexerManager.Load badEnv emptyManager emptyCatalogue "p").bind
       (fun mc => LexerManager.Load badEnv mc.1 mc.2 "p")).map
       (fun mc => (mc.1.libraries.length,
         (mc.1.libraries.filter (fun ll => ll.moduleName == "p")).length))
      = some (2, 0) := by decide

/-- C1, amended: for every path `P` whose native open succeeds (and not
already held), calling `Load(P)` twice in succession results in exactly
one retained library for path `P`, and the second call returns the very
same registry and catalogue as the first — hence exactly the same set of
registered capability names as calling `Load(P)` once. -/
theorem load_idempotent_on_success (env : LoaderEnv) (m : LexerManager)
    (cat : Catalogue) (P : String)
    (hv : (env P).valid = true)
    (hdup : m.libraries.any (fun ll => ll.moduleName == P) = false)
    (hok : LexerLibrary.construct env P ≠ none) :
    ∃ mc : LexerManager × Catalogue,
      LexerManager.Load env m cat P = some mc ∧
      LexerManager.Load env mc.1 mc.2 P = some mc ∧
      (mc.1.libraries.filter (fun ll => ll.moduleName == P)).length = 1 := by
  rcases hcon : LexerLibrary.construct env P with _ | sttr
  · exact absurd hcon hok
  obtain ⟨st, tr⟩ := sttr
  have hname : st.moduleName = P := construct_moduleName env P st tr hv hcon
  refine ⟨_, Load_fresh env m cat P st tr hdup hcon, ?_, ?_⟩
  · apply Load_dedup
    simp [List.any_append, hname]
  · simp only
    rw [List.filter_append]
    have h1 : m.libraries.filter (fun ll => ll.moduleName == P) = [] := by
      rw [List.filter_eq_nil_iff]
      intro a ha
      have h2 := (List.any_eq_false).mp hdup a ha
      simpa using h2
    rw [h1]
    simp [hname]

/-- C1, witness: loading the three-lexer plugin twice from an empty
registry. -/
theorem load_idempotent_on_success_witness :
    ∃ mc : LexerManager × Catalogue,
      LexerManager.Load threeLexEnv emptyManager emptyCatalogue "p" = some mc ∧
      LexerManager.Load threeLexEnv mc.1 mc.2 "p" = some mc ∧
      (mc.1.libraries.filter (fun ll => ll.moduleName == "p")).length = 1 :=
  load_idempotent_on_success threeLexEnv emptyManager emptyCatalogue "p"
    rfl rfl (by decide)

/-! ### Claim C2 -/

/-- C2, counterexample: for a concrete one-lexer plugin the construction
trace is `[register 0, setFactory 0]`: the module is registered into the
catalogue strictly BEFORE its factory is bound, so the binding does not
happen before the module is exposed externally. -/
theorem factory_bound_after_exposure_cex :
    (LexerLibrary.construct oneLexEnv "p").map Prod.snd =
      some [Event.register 0, Event.setFactory 0] ∧
    occursBeforeB [Event.register 0, Event.setFactory 0]
      (Event.setFactory 0) (Event.register 0) = false ∧
    occursBeforeB [Event.register 0, Event.setFactory 0]
      (Event.register 0) (Event.setFactory 0) = true := by
  refine ⟨by decide, by decide, by decide⟩

/-- C2, amended: for every module created during a library's
construction, the factory entry point is set exactly once — and at most
once overall — during the owning library's construction; but the binding
happens immediately AFTER the module is registered into the catalogue
(registration at trace position `2 i`, binding at `2 i + 1`), not
before. -/
theorem factory_bound_once_after_registration (env : LoaderEnv) (P : String)
    (st : LexerLibrary) (tr : List Event)
    (h : LexerLibrary.construct env P = some (st, tr)) :
    (∀ i, tr.count (Event.setFactory i) ≤ 1) ∧
    ∀ i, i < st.modules.length →
      tr.count (Event.setFactory i) = 1 ∧
      tr[2 * i]? = some (Event.register i) ∧
      tr[2 * i + 1]? = some (Event.setFactory i) := by
  rcases construct_cases env P st tr h with ⟨hm, ht⟩ | ⟨nf, ff, hnf, hff, hm, ht⟩
  · subst ht
    constructor
    · intro i
      simp
    · intro i hi
      rw [hm] at hi
      simp at hi
  · subst ht
    constructor
    · intro i
      rw [count_setFactory_libTrace]
      split <;> omega
    · intro i hi
      exact ⟨by rw [count_setFactory_libTrace, if_pos hi],
             getElem_libTrace_reg _ _ hi, getElem_libTrace_set _ _ hi⟩

/-- C2, witness: the one-lexer plugin's trace binds the factory exactly
once, right after the registration. -/
theorem factory_bound_once_after_registration_witness :
    [Event.register 0, Event.setFactory 0].count (Event.setFactory 0) = 1 ∧
    [Event.register 0, Event.setFactory 0][0]? = some (Event.register 0) ∧
    [Event.register 0, Event.setFactory 0][1]? = some (Event.setFactory 0) := by
  have h := (factory_bound_once_after_registration oneLexEnv "p"
      ⟨true, "p", [⟨SCLEX_AUTOMATIC, "Solo", some 7⟩]⟩
      [Event.register 0, Event.setFactory 0] rfl).2 0 (by decide)
  exact h

/-! ### Claim C4 -/

/-- C4: for every plugin whose count accessor returns 3 and whose name
accessor yields "Alpha", "Beta", "Gamma" for indices 0, 1, 2, `Load`
extends the catalogue with exactly three new registrations carrying
exactly those names, each module tagged `SCLEX_AUTOMATIC` and bound to
the factory obtained at its own index. -/
theorem discovery_completeness (env : LoaderEnv) (m : LexerManager)
    (cat : Catalogue) (P : String) (nf : Nat → Nat → String) (ff : Nat → Nat)
    (hv : (env P).valid = true)
    (hc : (env P).GetLexerCount = some 3)
    (hnf : (env P).GetLexerName = some nf)
    (hn0 : nf 0 100 = "Alpha") (hn1 : nf 1 100 = "Beta")
    (hn2 : nf 2 100 = "Gamma")
    (hff : (env P).GetLexerFactory = some ff)
    (hdup : m.libraries.any (fun ll => ll.moduleName == P) = false) :
    ∃ mc : LexerManager × Catalogue,
      LexerManager.Load env m cat P = some mc ∧
      mc.2.entries = cat.entries ++
        [(m.libraries.length, 0), (m.libraries.length, 1),
         (m.libraries.length, 2)] ∧
      (mc.2.entries.drop cat.entries.length).filterMap
        (fun r => (mc.1.deref r).map (fun md => md.name)) =
        ["Alpha", "Beta", "Gamma"] ∧
      ∀ r ∈ mc.2.entries.drop cat.entries.length,
        ∃ md, mc.1.deref r = some md ∧ md.language = SCLEX_AUTOMATIC ∧
          md.fnFactory = some (ff r.2) := by
  have hcon : LexerLibrary.construct env P =
      some ({ libValid := true, moduleName := P, modules :=
          [ { language := SCLEX_AUTOMATIC, name := "Alpha", fnFactory := some (ff 0) },
            { language := SCLEX_AUTOMATIC, name := "Beta", fnFactory := some (ff 1) },
            { language := SCLEX_AUTOMATIC, name := "Gamma", fnFactory := some (ff 2) } ] },
        libTrace 3) := by
    rw [construct_main env P 3 nf ff hv hc (by norm_num) hnf hff]
    rw [show Int.toNat 3 = 3 from rfl, show List.range 3 = [0, 1, 2] from rfl]
    simp [hn0, hn1, hn2]
  have hload := Load_fresh env m cat P _ _ hdup hcon
  have hreg : registrations m.libraries.length (libTrace 3) =
      [(m.libraries.length, 0), (m.libraries.length, 1),
       (m.libraries.length, 2)] := rfl
  rw [hreg] at hload
  refine ⟨_, hload, rfl, ?_, ?_⟩
  · simp only [List.drop_left]
    have hde : ∀ j : Nat,
        LexerManager.deref
          { libraries := m.libraries ++
              [{ libValid := true, moduleName := P, modules :=
                  [ { language := SCLEX_AUTOMATIC, name := "Alpha", fnFactory := some (ff 0) },
                    { language := SCLEX_AUTOMATIC, name := "Beta", fnFactory := some (ff 1) },
                    { language := SCLEX_AUTOMATIC, name := "Gamma", fnFactory := some (ff 2) } ] }] }
          (m.libraries.length, j) =
        ([ ({ language := SCLEX_AUTOMATIC, name := "Alpha", fnFactory := some (ff 0) } : ExternalLexerModule),
           { language := SCLEX_AUTOMATIC, name := "Beta", fnFactory := some (ff 1) },
           { language := SCLEX_AUTOMATIC, name := "Gamma", fnFactory := some (ff 2) } ])[j]? := by
      intro j
      unfold LexerManager.deref
      rw [List.getElem?_append_right (le_refl _)]
      simp
    simp [List.filterMap_cons, hde]
  · intro r hr
    simp only [List.drop_left, List.mem_cons, List.not_mem_nil, or_false] at hr
    rcases hr with rfl | rfl | rfl
    all_goals {
      unfold LexerManager.deref
      rw [List.getElem?_append_right (le_refl _)]
      simp
    }

/-- C4, witness: loading the concrete three-lexer plugin into an empty
registry. -/
theorem discovery_completeness_witness :
    ∃ mc : LexerManager × Catalogue,
      LexerManager.Load threeLexEnv emptyManager emptyCatalogue "p" = some mc ∧
      mc.2.entries = emptyCatalogue.entries ++
        [(emptyManager.libraries.length, 0), (emptyManager.libraries.length, 1),
         (emptyManager.libraries.length, 2)] ∧
      (mc.2.entries.drop emptyCatalogue.entries.length).filterMap
        (fun r => (mc.1.deref r).map (fun md => md.name)) =
        ["Alpha", "Beta", "Gamma"] ∧
      ∀ r ∈ mc.2.entries.drop emptyCatalogue.entries.length,
        ∃ md, mc.1.deref r = some md ∧ md.language = SCLEX_AUTOMATIC ∧
          md.fnFactory = some ((fun i => i + 10) r.2) :=
  discovery_completeness threeLexEnv emptyManager emptyCatalogue "p"
    (fun i _ => if i = 0 then "Alpha" else if i = 1 then "Beta" else "Gamma")
    (fun i => i + 10) rfl rfl rfl rfl rfl rfl rfl rfl

/-! ### Claim C7 -/

/-- C7: the name-discovery step passes a buffer capacity of exactly 100
to the name accessor; provided the accessor honours the interface
contract — what it writes is a prefix of the reported name and fits with
its terminator inside the given capacity — every registered module's
name is a truncated prefix of the reported name occupying strictly fewer
than 100 bytes (null terminator included within the 100-byte buffer). -/
theorem name_truncation (env : LoaderEnv) (P : String) (R : Nat → String)
    (nf : Nat → Nat → String)
    (hnf : (env P).GetLexerName = some nf)
    (hcontract : ∀ i, (nf i 100).data.isPrefixOf (R i).data = true ∧
      (nf i 100).length < 100)
    (st : LexerLibrary) (tr : List Event)
    (h : LexerLibrary.construct env P = some (st, tr)) :
    ∀ (i : Nat) (md : ExternalLexerModule), st.modules[i]? = some md →
      md.name.data.isPrefixOf (R i).data = true ∧ md.name.length < 100 := by
  intro i md hmd
  rcases construct_cases env P st tr h with ⟨hm, _⟩ | ⟨nf2, ff, hnf2, hff, hm, _⟩
  · rw [hm] at hmd
    simp at hmd
  · have hnf3 : nf2 = nf := by
      rw [hnf] at hnf2
      injection hnf2 with h2
      exact h2.symm
    subst hnf3
    rw [hm, List.getElem?_map] at hmd
    by_cases hi : i < st.modules.length
    · rw [List.getElem?_range hi] at hmd
      simp only [Option.map_some', Option.some.injEq] at hmd
      rw [← hmd]
      exact hcontract i
    · rw [List.getElem?_eq_none (by simpa using hi)] at hmd
      exact absurd hmd (by simp)

/-- C7, witness: a plugin reporting a 150-character name registers the
99-character truncated prefix, which fits the 100-byte buffer. -/
theorem name_truncation_witness :
    (String.mk (List.replicate 99 'x')).data.isPrefixOf
      longReportedName.data = true ∧
    (String.mk (List.replicate 99 'x')).length < 100 := by
  have hcontr : ∀ i, (longNameWriter i 100).data.isPrefixOf
      ((fun _ => longReportedName) i).data = true ∧
      (longNameWriter i 100).length < 100 := by
    intro i
    simp only [longNameWriter]
    constructor <;> decide
  exact name_truncation longNameEnv "p" (fun _ => longReportedName)
    longNameWriter rfl hcontr
    ⟨true, "p", [⟨SCLEX_AUTOMATIC, String.mk (List.replicate 99 'x'), some 0⟩]⟩
    (libTrace 1) rfl 0
    ⟨SCLEX_AUTOMATIC, String.mk (List.replicate 99 'x'), some 0⟩ rfl

/-! ### Claim C9 -/

/-- C9, counterexample: for the empty path the claim fails — the first
failed `Load("")` stores the empty name, so a second `Load("")` is
deduplicated against it and does NOT append one more library: the
library count stays 1. -/
theorem failed_empty_path_no_append_cex :
    (LexerManager.Load badEnv emptyManager emptyCatalogue "").bind
      (fun mc => LexerManager.Load badEnv mc.1 mc.2 "") =
    LexerManager.Load badEnv emptyManager emptyCatalogue "" ∧
    (LexerManager.Load badEnv emptyManager emptyCatalogue "").map
      (fun mc => mc.1.libraries.length) = some 1 := by decide

/-- C9, amended: for every NON-EMPTY path `P` whose native open fails
(and with no held library already storing `P`), the constructed
library's stored path remains the empty string rather than `P`, the
library is nonetheless appended, and each repeated `Load(P)` appends one
more library object, because the duplicate check compares only stored
paths. For the empty path itself the second `Load` is deduplicated
instead. -/
theorem failed_load_appends_per_attempt (env : LoaderEnv) (m : LexerManager)
    (cat : Catalogue) (P : String)
    (hv : (env P).valid = false) (hP : P ≠ "")
    (hdup : m.libraries.any (fun ll => ll.moduleName == P) = false) :
    ∃ mc1 mc2 : LexerManager × Catalogue,
      LexerManager.Load env m cat P = some mc1 ∧
      LexerManager.Load env mc1.1 mc1.2 P = some mc2 ∧
      mc1.1.libraries = m.libraries ++
        [{ libValid := false, moduleName := "", modules := [] }] ∧
      mc2.1.libraries = m.libraries ++
        [{ libValid := false, moduleName := "", modules := [] },
         { libValid := false, moduleName := "", modules := [] }] := by
  have h2 : (m.libraries ++
      [({ libValid := false, moduleName := "", modules := [] } : LexerLibrary)]).any
      (fun ll => ll.moduleName == P) = false := by
    simp [List.any_append, hdup]
    exact fun h => hP h.symm
  refine ⟨_, _, Load_fresh env m cat P _ _ hdup (construct_invalid env P hv),
    Load_fresh env _ _ P _ _ h2 (construct_invalid env P hv), rfl, ?_⟩
  simp

/-- C9, witness: two failed loads of the non-empty path `"p"` append two
distinct inert libraries, both storing the empty name. -/
theorem failed_load_appends_per_attempt_witness :
    ∃ mc1 mc2 : LexerManager × Catalogue,
      LexerManager.Load badEnv emptyManager emptyCatalogue "p" = some mc1 ∧
      LexerManager.Load badEnv mc1.1 mc1.2 "p" = some mc2 ∧
      mc1.1.libraries = emptyManager.libraries ++
        [{ libValid := false, moduleName := "", modules := [] }] ∧
      mc2.1.libraries = emptyManager.libraries ++
        [{ libValid := false, moduleName := "", modules := [] },
         { libValid := false, moduleName := "", modules := [] }] :=
  failed_load_appends_per_attempt badEnv emptyManager emptyCatalogue "p"
    rfl (by decide) rfl

end Scintilla
